import Mathlib

/-!
Verification development for the Aerodrome manager plugin
(src/aerodrome.ts, src/aerodromeUtils.ts).

The definitions below are a shallow embedding of the TypeScript source:
pure computations become Lean functions, on-chain reads and transaction
submissions become explicit environments (records of per-call outcomes)
and emitted call traces, and uint256 quantities become Nat.  Each
definition cites the source lines it embeds.
-/

/-! ## Decimal digit strings

Models the exact decimal strings produced and consumed by
ethers.formatUnits / ethers.parseUnits (used at src/aerodrome.ts:411,
src/aerodrome.ts:938 and throughout).  A decimal string is modelled as
its list of digits (most significant first) for the whole part and the
fractional part; the decimal point is the pair boundary.
-/

/-- Digits of a natural number, most significant first, by repeated
division; fuel bounds the recursion (300 digits is far beyond uint256). -/
def natDigitsAux : Nat → Nat → List Nat → List Nat
  | 0, _, acc => acc
  | _ + 1, 0, acc => acc
  | fuel + 1, n, acc => natDigitsAux fuel (n / 10) (n % 10 :: acc)

/-- Decimal digit list of a natural number (most significant first). -/
def natDigits (n : Nat) : List Nat :=
  if n = 0 then [0] else natDigitsAux 300 n []

/-- Value of a digit list, most significant first. -/
def digitsVal (ds : List Nat) : Nat :=
  ds.foldl (fun a d => a * 10 + d) 0

/-- Left-pad a digit list with zeros to the given length. -/
def padLeftZeros (len : Nat) (ds : List Nat) : List Nat :=
  List.replicate (len - ds.length) 0 ++ ds

/-- Drop trailing zeros, keeping at least one digit (ethers keeps a
single 0 after the decimal point when the fraction is all zeros). -/
def trimTrailingZeros (ds : List Nat) : List Nat :=
  let t := (ds.reverse.dropWhile (fun d => d = 0)).reverse
  if t = [] then [0] else t

/-- A formatted decimal string: whole-part digits and fraction digits. -/
structure DecimalDigits where
  whole : List Nat
  frac : List Nat
  deriving Repr, DecidableEq

/-- Model of ethers.formatUnits(raw, decimals): exact decimal notation of
raw / 10^decimals, fraction padded to `decimals` digits and then trimmed
of trailing zeros (at least one fraction digit kept).  No floating point
is involved in the library routine. -/
def formatUnits (raw : Nat) (decimals : Nat) : DecimalDigits :=
  { whole := natDigits (raw / 10 ^ decimals)
    frac := trimTrailingZeros (padLeftZeros decimals (natDigits (raw % 10 ^ decimals))) }

/-- Model of ethers.parseUnits(str, decimals): fails when the string has
more fraction digits than `decimals`, otherwise scales exactly. -/
def parseUnits (s : DecimalDigits) (decimals : Nat) : Option Nat :=
  if s.frac.length ≤ decimals then
    some (digitsVal s.whole * 10 ^ decimals + digitsVal s.frac * 10 ^ (decimals - s.frac.length))
  else
    none

/-! ## ASCII lower-casing

Models String.prototype.toLowerCase() as used for pool-name and address
comparison (src/aerodrome.ts:305, src/aerodromeUtils.ts:750).  Pool names
and hex addresses are ASCII, so ASCII lowering is exact here.
-/

/-- ASCII lower-casing of one character. -/
def asciiLower (c : Char) : Char :=
  if 65 ≤ c.toNat ∧ c.toNat ≤ 90 then Char.ofNat (c.toNat + 32) else c

/-- ASCII lower-casing of a string. -/
def lowerString (s : String) : String :=
  ⟨s.data.map asciiLower⟩

/-! ## IEEE-754 binary64 rounding of integers

JavaScript parseFloat produces a binary64 value; for an integer decimal
numeral of at most 20 significant digits ECMA-262 mandates round to
nearest, ties to even.  This executable model is what the decimal-string
branch of toBigInt (src/aerodrome.ts:1723-1728) routes values through.
-/

/-- Number of binary digits of n (fuel-bounded; 400 covers uint256). -/
def bitLenAux : Nat → Nat → Nat
  | 0, _ => 0
  | _ + 1, 0 => 0
  | fuel + 1, n => bitLenAux fuel (n / 2) + 1

/-- Number of binary digits of a natural number. -/
def bitLen (n : Nat) : Nat := bitLenAux 400 n

/-- Round a natural number to the nearest binary64-representable value
(53-bit significand), ties to even.  Exact below 2^53. -/
def roundFloat64 (n : Nat) : Nat :=
  if n < 2 ^ 53 then n
  else
    let e := bitLen n - 53
    let u := 2 ^ e
    let q := n / u
    let r := n % u
    if 2 * r < u then q * u
    else if u < 2 * r then (q + 1) * u
    else if q % 2 = 0 then q * u else (q + 1) * u

/-! ## Static configuration: pool catalog and address table -/

/-- One leg of a pool catalog entry (src/aerodrome.ts:30-66). -/
structure PoolToken where
  symbol : String
  decimals : Nat
  deriving Repr, DecidableEq

/-- Pool catalog entry; slippage is a percentage (src/aerodrome.ts:30-66). -/
structure PoolCfg where
  name : String
  tokenA : PoolToken
  tokenB : PoolToken
  stable : Bool
  slippage : Nat
  deriving Repr, DecidableEq

/-- The POOLS catalog (src/aerodrome.ts:30-66); the per-leg default
deposit amounts are omitted as no claim concerns them. -/
def POOLS : List PoolCfg :=
  [ { name := "USDC-WETH", tokenA := ⟨"USDC", 6⟩, tokenB := ⟨"WETH", 18⟩, stable := false, slippage := 30 },
    { name := "USDC-AERO", tokenA := ⟨"USDC", 6⟩, tokenB := ⟨"AERO", 18⟩, stable := false, slippage := 50 },
    { name := "WETH-VIRTUAL", tokenA := ⟨"WETH", 18⟩, tokenB := ⟨"VIRTUAL", 18⟩, stable := false, slippage := 30 },
    { name := "WETH-TN100x", tokenA := ⟨"WETH", 18⟩, tokenB := ⟨"TN100x", 18⟩, stable := false, slippage := 30 },
    { name := "WETH-VEIL", tokenA := ⟨"WETH", 18⟩, tokenB := ⟨"VEIL", 18⟩, stable := false, slippage := 30 } ]

/-- The all-zero EVM address (ethers.ZeroAddress). -/
def zeroAddress : String := "0x0000000000000000000000000000000000000000"

/-- Modelled from the spec: the static address table imported from
./addresses, a module of this repository that is not under src/ (only its
importers are).  Spec section 3 describes it as an immutable mapping from
logical token symbol and protocol contract role to address, covering all
supported tokens; the concrete address strings below are distinct
placeholders since the real constants are unavailable. -/
def baseAddresses : List (String × String) :=
  [ ("FACTORY", "0xf100000000000000000000000000000000000001"),
    ("USDC", "0xa100000000000000000000000000000000000001"),
    ("WETH", "0xa100000000000000000000000000000000000002"),
    ("AERO", "0xa100000000000000000000000000000000000003"),
    ("VIRTUAL", "0xa100000000000000000000000000000000000004"),
    ("TN100x", "0xa100000000000000000000000000000000000005"),
    ("VEIL", "0xa100000000000000000000000000000000000006"),
    ("AERODROME_ROUTER", "0xf100000000000000000000000000000000000002"),
    ("AERODROME_FACTORY", "0xf100000000000000000000000000000000000003"),
    ("AERODROME_VOTER", "0xf100000000000000000000000000000000000004") ]

/-- this.addresses[symbol] lookup (src/aerodrome.ts:121, 385). -/
def lookupAddress (sym : String) : Option String :=
  (baseAddresses.find? (fun p => p.1 = sym)).map Prod.snd

/-- Token decimals resolution used by getManagerBalances
(src/aerodrome.ts:392-402): default 18, overridden by the first catalog
pool containing the symbol. -/
def decimalsFor (sym : String) : Nat :=
  match POOLS.find? (fun p => p.tokenA.symbol = sym ∨ p.tokenB.symbol = sym) with
  | some p => if p.tokenA.symbol = sym then p.tokenA.decimals else p.tokenB.decimals
  | none => 18

/-! ## Numeric coercion: toBigInt (src/aerodrome.ts:1705-1771)

The routine branches on the runtime shape of its argument.  The input
shapes the claims quantify over are modelled as an inductive: a numeral
string is represented by the number it denotes (BigInt on a well-formed
hex numeral is exact; parseFloat on a decimal integer numeral rounds to
the nearest binary64, modelled by roundFloat64).  A malformed 0x-string
is its own constructor: on it `BigInt(value)` at src/aerodrome.ts:1720 is
evaluated outside the try block and its exception propagates, hence the
Except codomain.  parseFloat of numerals longer than 20 significant
digits may by ECMA-262 be off by one unit in the 20th digit from correct
rounding; no theorem below depends on such values. -/
inductive CoercionInput where
  | nullish
  | fromBigInt (n : Nat)
  | fromNumber (n : Nat)
  | hexString (n : Nat)
  | badHexString
  | decimalString (n : Nat)
  | unparsableString
  deriving Repr, DecidableEq

/-- Model of the private toBigInt helper (src/aerodrome.ts:1705-1771),
restricted to unsigned inputs (on-chain uint256 values).
nullish goes to 0 (line 1707); a native bigint is returned as is (line
1711); an integral number goes through Math.floor, exact (line 1715); a
0x-string goes through BigInt, exact on well-formed hex, throwing
(uncaught) on malformed hex (line 1720); a decimal numeral goes through
parseFloat then Math.trunc then BigInt, i.e. binary64 rounding (lines
1725-1728); a string that parseFloat rejects falls to the regex fallback
whose exception is caught, returning 0 (lines 1731-1736). -/
def toBigInt : CoercionInput → Except Unit Nat
  | .nullish => .ok 0
  | .fromBigInt n => .ok n
  | .fromNumber n => .ok n
  | .hexString n => .ok n
  | .badHexString => .error ()
  | .decimalString n => .ok (roundFloat64 n)
  | .unparsableString => .ok 0

/-! ## Slippage minimum computation (C1)

src/aerodrome.ts:673-674 computes, with slippageTolerance the catalog
percentage (an integer for every catalog entry, so Math.floor and the
float multiplication by 100 are exact):
  (balance * BigInt(Math.floor(10000 - slippageTolerance * 100))) / BigInt(10000)
src/aerodromeUtils.ts:510-512 hard-codes slippage = 30 (percent) in the
same formula.  Division is BigInt division, which truncates. -/

/-- Minimum-received amount as computed by AerodromeManager.addLiquidity
(src/aerodrome.ts:673), slippage given as the catalog percentage. -/
def minAmountFromPercent (balance slippagePercent : Nat) : Nat :=
  balance * (10000 - slippagePercent * 100) / 10000

/-- Minimum-received amount as computed by the orchestrator addLiquidity
(src/aerodromeUtils.ts:511-512), slippage fixed at 30 percent. -/
def utilsMinAmount (balance : Nat) : Nat :=
  balance * (10000 - 30 * 100) / 10000

/-- Stated from the spec wording for the refinement comparison:
min = floor(B * (10000 - S) / 10000) with S in basis points. -/
def specSlippageMin (B S : Nat) : Nat :=
  B * (10000 - S) / 10000

/-! ## getManagerBalances (C4, src/aerodrome.ts:371-444) -/

/-- One entry of the balances record (src/aerodrome.ts:414-431).  The
balance is Int-typed to state non-negativity meaningfully; the chain
returns uint256, modelled as Nat in the read oracle. -/
structure BalanceEntry where
  symbol : String
  address : String
  balance : Int
  decimals : Nat
  formatted : DecimalDigits
  errorNote : Option String
  deriving Repr, DecidableEq

/-- The fixed allow-list of token symbols (src/aerodrome.ts:381). -/
def tokenSymbols : List String :=
  ["USDC", "WETH", "AERO", "VIRTUAL", "TN100x", "VEIL"]

/-- Body of the per-symbol loop of getManagerBalances
(src/aerodrome.ts:383-433).  `readBalance` is the outcome of the
getTokenBalance chain read for the symbol's address; on failure the
entry is zero-filled with the error message and the USDC/18 decimals
default of the catch branch (src/aerodrome.ts:424-431). -/
def balanceEntryFor (readBalance : String → Except String Nat) (sym : String) : BalanceEntry :=
  match readBalance sym with
  | .ok b =>
      { symbol := sym
        address := (lookupAddress sym).getD zeroAddress
        balance := (b : Int)
        decimals := decimalsFor sym
        formatted := formatUnits b (decimalsFor sym)
        errorNote := none }
  | .error m =>
      { symbol := sym
        address := (lookupAddress sym).getD zeroAddress
        balance := 0
        decimals := if sym = "USDC" then 6 else 18
        formatted := formatUnits 0 (if sym = "USDC" then 6 else 18)
        errorNote := some m }

/-- getManagerBalances (src/aerodrome.ts:371-444): iterates the fixed
allow-list; every listed symbol resolves in the (spec-modelled) address
table, so the address-missing `continue` at src/aerodrome.ts:387-390 is
never taken and each symbol contributes exactly one entry.  Each
iteration catches its own read failure. -/
def getManagerBalances (readBalance : String → Except String Nat) : List BalanceEntry :=
  tokenSymbols.map (balanceEntryFor readBalance)

/-! ## Gateway addLiquidity with transaction trace (C5)

Embedding of AerodromeManager.addLiquidity (src/aerodrome.ts:621-791).
Chain reads are supplied by the environment; the function returns its
result together with the list of state-mutating transactions it
submitted, in submission order.  Reads (getTokenBalance, allowance) are
not state-mutating and are not traced. -/

/-- A state-mutating transaction submitted by addLiquidity. -/
inductive MutTx where
  | approveToken (token : String)
  | addLiquidityAerodrome
  deriving Repr, DecidableEq

/-- Environment of one addLiquidity call: outcomes of the chain
interactions it performs, keyed as in the source. -/
structure AddLiqEnv where
  managerReady : Bool
  getTokenBalance : String → Except String Nat
  allowance : String → Nat
  approveOutcome : String → Except String Unit
  addLiquidityOutcome : Except String String
  eventLiquidity : Option Nat

/-- Result record of addLiquidity (src/aerodrome.ts:769-790). -/
structure AddLiqResult where
  success : Bool
  message : Option String
  txHash : Option String
  lpLiquidity : Option Nat
  deriving Repr, DecidableEq

/-- Approval step for one leg (src/aerodrome.ts:691-715): reads the
router allowance and submits an approval transaction only when it is
below the desired amount; a failing approval throws into the outer
catch. -/
def approveLeg (env : AddLiqEnv) (tokenAddr : String) (desired : Nat) :
    Except String (List MutTx) :=
  if env.allowance tokenAddr < desired then
    match env.approveOutcome tokenAddr with
    | .ok _ => .ok [MutTx.approveToken tokenAddr]
    | .error m => .error m
  else
    .ok []

/-- AerodromeManager.addLiquidity (src/aerodrome.ts:621-791).  Returns
the result and the submitted state-mutating transactions in order. -/
def managerAddLiquidity (env : AddLiqEnv) (poolName : String) :
    AddLiqResult × List MutTx :=
  if env.managerReady = false then
    ({ success := false, message := some "Manager not initialized", txHash := none, lpLiquidity := none }, [])
  else
    match POOLS.find? (fun p => p.name = poolName) with
    | none =>
        ({ success := false, message := some ("Pool " ++ poolName ++ " not found"), txHash := none, lpLiquidity := none }, [])
    | some pool =>
        let addrA := (lookupAddress pool.tokenA.symbol).getD zeroAddress
        let addrB := (lookupAddress pool.tokenB.symbol).getD zeroAddress
        match env.getTokenBalance addrA, env.getTokenBalance addrB with
        | .error _, _ =>
            ({ success := false, message := some "Failed to retrieve token balances", txHash := none, lpLiquidity := none }, [])
        | .ok _, .error _ =>
            ({ success := false, message := some "Failed to retrieve token balances", txHash := none, lpLiquidity := none }, [])
        | .ok balA, .ok balB =>
            if balA = 0 ∨ balB = 0 then
              ({ success := false
                 message := some ("Insufficient balance in manager. Please deposit " ++ pool.tokenA.symbol ++ " and " ++ pool.tokenB.symbol ++ " first.")
                 txHash := none, lpLiquidity := none }, [])
            else
              match approveLeg env addrA balA with
              | .error m => ({ success := false, message := some m, txHash := none, lpLiquidity := none }, [])
              | .ok txsA =>
                match approveLeg env addrB balB with
                | .error m => ({ success := false, message := some m, txHash := none, lpLiquidity := none }, txsA)
                | .ok txsB =>
                  match env.addLiquidityOutcome with
                  | .error m =>
                      ({ success := false, message := some m, txHash := none, lpLiquidity := none },
                       txsA ++ txsB ++ [MutTx.addLiquidityAerodrome])
                  | .ok h =>
                      ({ success := true, message := none, txHash := some h, lpLiquidity := env.eventLiquidity },
                       txsA ++ txsB ++ [MutTx.addLiquidityAerodrome])

/-! ## claimAllRewards (C6, src/aerodrome.ts:1635-1702) -/

/-- A staked position as produced by getStakedPositions
(src/aerodrome.ts:1331-1341); fields not used by claimAllRewards are
omitted. -/
structure StakedPos where
  lpToken : String
  gauge : String
  poolName : String
  earned : Nat
  deriving Repr, DecidableEq

/-- A binary64 value as (mantissa, exponent): the represented value is
mantissa * 2^(exponent - 52); a nonzero rounding result has mantissa in
[2^52, 2^53]. -/
structure Float64 where
  mantissa : Nat
  exponent : Int
  deriving Repr, DecidableEq

/-- Binade exponent of num/den (num, den positive): the unique e with
2^e <= num/den < 2^(e+1), computed from the bit lengths (the ratio of
a p-bit by a q-bit number lies in (2^(p-q-1), 2^(p-q+1)), so e is
p - q or p - q - 1, settled by one comparison). -/
def ratExp (num den : Nat) : Int :=
  let d : Int := (bitLen num : Int) - (bitLen den : Int)
  if 0 ≤ d then (if den * 2 ^ d.toNat ≤ num then d else d - 1)
  else (if den ≤ num * 2 ^ (-d).toNat then d else d - 1)

/-- Round the ratio N/D to the nearest integer, ties to even. -/
def roundMantissa (N D : Nat) : Nat :=
  let q := N / D
  let r := N % D
  if 2 * r < D then q
  else if D < 2 * r then q + 1
  else if q % 2 = 0 then q else q + 1

/-- Round the non-negative rational num/den to the nearest binary64
value, ties to even: scale the value into the 53-bit mantissa range
[2^52, 2^53) of its binade and round the mantissa.  Subnormal and
overflow regimes are outside every value this file applies it to. -/
def roundRat64 (num den : Nat) : Float64 :=
  if num = 0 ∨ den = 0 then { mantissa := 0, exponent := 0 }
  else
    let e := ratExp num den
    let s : Int := 52 - e
    let M := if 0 ≤ s then roundMantissa (num * 2 ^ s.toNat) den
             else roundMantissa num (den * 2 ^ (-s).toNat)
    { mantissa := M, exponent := e }

/-- JavaScript parseFloat applied to an exact decimal string: the
string's exact value, rounded to the nearest binary64 (ties to even),
as ECMA-262 mandates for numerals of at most 20 significant digits. -/
def parseFloatDecimal (s : DecimalDigits) : Float64 :=
  roundRat64 (digitsVal s.whole * 10 ^ s.frac.length + digitsVal s.frac) (10 ^ s.frac.length)

/-- Is the binary64 value at least 1.0?  For exponent below 52 this is
mantissa >= 2^(52 - exponent); for exponent at least 52 the value is at
least 2^52. -/
def float64GeOne (v : Float64) : Bool :=
  if v.mantissa = 0 then false
  else if 52 ≤ v.exponent then true
  else decide (2 ^ (52 - v.exponent).toNat ≤ v.mantissa)

/-- The minimum-reward filter of claimAllRewards
(src/aerodrome.ts:1658-1659): parseFloat(ethers.formatEther(earned))
at least 1.0, with formatEther the exact decimal string of
earned / 10^18 and parseFloat its binary64 rounding.  For earned below
10^18 the numeral has at most 18 significant digits, so ECMA-262
mandates correct rounding and the model is exact there; for earned of
more than 20 significant digits ECMA-262 permits truncation after the
20th digit, but any such perturbation leaves a value at least 1.0 on
both sides of the comparison, so the Boolean agrees with every
conforming engine for all inputs.  The filter is true exactly for
earned at least 10^18 - 55: amounts up to 55 wei below one whole token
round up to exactly 1.0. -/
def claimThreshold (earned : Nat) : Bool :=
  float64GeOne (parseFloatDecimal (formatUnits earned 18))

/-- Result of claimAllRewards (src/aerodrome.ts:1693-1697). -/
structure ClaimAllResult where
  success : Bool
  message : Option String
  claimed : List StakedPos
  deriving Repr, DecidableEq

/-- AerodromeManager.claimAllRewards (src/aerodrome.ts:1635-1702).
`positionsRes` is the getStakedPositions outcome (none when it failed);
`claimOutcome` says whether the per-gauge claimRewards call for a
position succeeds (a returned failure and a thrown error are handled
identically at src/aerodrome.ts:1681-1690: logged and skipped).  Returns
the result and the list of positions for which a claim was attempted. -/
def managerClaimAllRewards (positionsRes : Option (List StakedPos))
    (claimOutcome : StakedPos → Bool) : ClaimAllResult × List StakedPos :=
  match positionsRes with
  | none =>
      ({ success := false, message := some "Failed to retrieve staked positions", claimed := [] }, [])
  | some stakedPositions =>
      if stakedPositions = [] then
        ({ success := false, message := some "No staked positions found", claimed := [] }, [])
      else
        let claimablePositions := stakedPositions.filter (fun p => claimThreshold p.earned)
        if claimablePositions = [] then
          ({ success := false
             message := some "No positions have rewards above the 1 AERO minimum threshold"
             claimed := [] }, [])
        else
          let results := claimablePositions.filter claimOutcome
          if results = [] then
            ({ success := false, message := some "Failed to claim any rewards", claimed := [] },
             claimablePositions)
          else
            ({ success := true, message := none, claimed := results }, claimablePositions)

/-! ## String helpers for the orchestrator

poolName.split('-') and poolName.toLowerCase().includes('stable')
(src/aerodromeUtils.ts:303, 333, 373, 393, 630-633). -/

/-- Does the first list occur as a prefix of the second? -/
def listHasPrefix : List Char → List Char → Bool
  | [], _ => true
  | _ :: _, [] => false
  | p :: ps, c :: cs => p = c && listHasPrefix ps cs

/-- Does the first list occur as a contiguous sublist of the second? -/
def listContainsSub (pat : List Char) : List Char → Bool
  | [] => decide (pat = [])
  | c :: cs => listHasPrefix pat (c :: cs) || listContainsSub pat cs

/-- Model of s.includes(pat). -/
def stringIncludes (s pat : String) : Bool :=
  listContainsSub pat.data s.data

/-- Accumulating worker for split on a dash. -/
def splitDashAux : List Char → List Char → List String
  | [], cur => [⟨cur.reverse⟩]
  | c :: rest, cur =>
      if c = '-' then (⟨cur.reverse⟩ : String) :: splitDashAux rest []
      else splitDashAux rest (c :: cur)

/-- Model of poolName.split('-'). -/
def splitDash (s : String) : List String :=
  splitDashAux s.data []

/-- stable-pool inference from the name (src/aerodromeUtils.ts:333, 393, 630). -/
def stableOf (poolName : String) : Bool :=
  stringIncludes (lowerString poolName) "stable"

/-! ## initialize (C7 and C10, src/aerodrome.ts:191-366)

The session state carries the mutable fields of AerodromeManager that
initialize touches; the environment carries the outcome of each
externally fallible step of one call.  The transition returns the result
record, the post-state, and the chain calls performed (reads and the
setAerodromeFactory transaction), in order. -/

/-- Mutable session state (src/aerodrome.ts:106-116). -/
structure InitState where
  initialized : Bool
  initializing : Bool
  managerAddress : Option String
  factorySet : Bool
  managerSet : Bool
  voterSet : Bool
  deriving Repr, DecidableEq

/-- A fresh session as built by the constructor (src/aerodrome.ts:118-125). -/
def freshState : InitState :=
  { initialized := false, initializing := false, managerAddress := none,
    factorySet := false, managerSet := false, voterSet := false }

/-- Outcomes of the externally fallible steps of one initialize call. -/
structure InitEnv where
  factoryCtorOk : Bool
  userAddress : Except String String
  getUserManager : Except String String
  managerAbiOk : Bool
  managerCtorOk : Bool
  ownerRes : Except String String
  aeroFactoryRes : Except String (Option String)
  setFactoryOk : Bool
  voterCtorOk : Bool

/-- Chain calls made by initialize, in order. -/
inductive InitCall where
  | callGetUserManager
  | callOwner
  | callAeroFactory
  | txSetFactory
  deriving Repr, DecidableEq

/-- Result record of initialize (src/aerodrome.ts:196, 202, 359 and the
failure returns in between). -/
structure InitResult where
  success : Bool
  managerAddress : Option String
  message : Option String
  deriving Repr, DecidableEq

/-- Tail of initialize after ownership has been verified
(src/aerodrome.ts:310-359): read the aerodromeFactory pointer (a read
error is treated as unset), submit the one-time setAerodromeFactory
transaction when unset, best-effort build the voter contract, then mark
the session initialized and release the initializing flag. -/
def initializeTail (s : InitState) (e : InitEnv) (mAddr : String)
    (calls : List InitCall) : InitResult × InitState × List InitCall :=
  let af := match e.aeroFactoryRes with
    | .error _ => none
    | .ok v => v
  let calls := calls ++ [InitCall.callAeroFactory]
  if af = none ∨ af = some zeroAddress then
    if e.setFactoryOk = false then
      ({ success := false, managerAddress := none
         message := some "Failed to set Aerodrome factory address. Please check contract permissions." },
       s, calls ++ [InitCall.txSetFactory])
    else
      ({ success := true, managerAddress := some mAddr, message := none },
       { s with voterSet := e.voterCtorOk, initialized := true, initializing := false },
       calls ++ [InitCall.txSetFactory])
  else
    ({ success := true, managerAddress := some mAddr, message := none },
     { s with voterSet := e.voterCtorOk, initialized := true, initializing := false },
     calls)

/-- AerodromeManager.initialize (src/aerodrome.ts:191-366), one call.
Structured failure returns leave the state exactly as the source does:
only the success path (src/aerodrome.ts:357-358) and the outer catch
(src/aerodrome.ts:362, reached when signer.getAddress throws) touch the
initializing flag after it is set at src/aerodrome.ts:206. -/
def initializeStep (s : InitState) (e : InitEnv) :
    InitResult × InitState × List InitCall :=
  if s.initialized then
    ({ success := true, managerAddress := none, message := some "Already initialized" }, s, [])
  else if s.initializing then
    ({ success := false, managerAddress := none, message := some "Initialization already in progress" }, s, [])
  else
    let s1 : InitState := { s with initializing := true }
    if e.factoryCtorOk = false then
      ({ success := false, managerAddress := none
         message := some "Failed to initialize factory contract. Please check the ABI and address." }, s1, [])
    else
      let s2 : InitState := { s1 with factorySet := true }
      match e.userAddress with
      | .error m =>
          ({ success := false, managerAddress := none, message := some m },
           { s2 with initializing := false }, [])
      | .ok user =>
        match e.getUserManager with
        | .error _ =>
            ({ success := false, managerAddress := none
               message := some "Failed to call getUserManager. The contract might not be deployed at the specified address or the network could be incorrect." },
             s2, [InitCall.callGetUserManager])
        | .ok mAddr =>
          let s3 : InitState := { s2 with managerAddress := some mAddr }
          if mAddr = zeroAddress then
            ({ success := false, managerAddress := none
               message := some "No manager found for your address. Create one first." },
             s3, [InitCall.callGetUserManager])
          else if e.managerAbiOk = false then
            ({ success := false, managerAddress := none
               message := some "Manager ABI is not properly loaded. Please check your ABI files." },
             s3, [InitCall.callGetUserManager])
          else if e.managerCtorOk = false then
            ({ success := false, managerAddress := none
               message := some "Failed to initialize manager contract. Please check the ABI and address." },
             s3, [InitCall.callGetUserManager])
          else
            let s4 : InitState := { s3 with managerSet := true }
            match e.ownerRes with
            | .error _ =>
                ({ success := false, managerAddress := none
                   message := some "Failed to verify manager ownership. The contract might not be compatible." },
                 s4, [InitCall.callGetUserManager, InitCall.callOwner])
            | .ok owner =>
              if lowerString owner ≠ lowerString user then
                ({ success := false, managerAddress := none
                   message := some "You are not the owner of this manager." },
                 s4, [InitCall.callGetUserManager, InitCall.callOwner])
              else
                initializeTail s4 e mAddr [InitCall.callGetUserManager, InitCall.callOwner]

/-! ## addLiquidityAndStake (C2, src/aerodromeUtils.ts:594-716) -/

/-- A nested sub-step result (stakeResult / unstakeResult / removeResult
shapes, src/aerodromeUtils.ts:15-19, 30-42). -/
structure SubResult where
  success : Bool
  message : Option String
  deriving Repr, DecidableEq

/-- Outcome of the orchestrator addLiquidity call as seen by the
composition (src/aerodromeUtils.ts:355-591 returns a result record;
a thrown error is the Except error case). -/
structure AddLiqUtilResult where
  success : Bool
  message : Option String
  deriving Repr, DecidableEq

/-- Environment of one addLiquidityAndStake call. -/
structure ALSEnv where
  addLiquidityRes : Except String AddLiqUtilResult
  pairFor : String → String → Bool → Option String
  stakeRes : Except String SubResult

/-- Combined result (src/aerodromeUtils.ts:6-21).  success and message
come from spreading the addLiquidity result. -/
structure ALSResult where
  success : Bool
  message : Option String
  staked : Bool
  stakeResult : Option SubResult
  deriving Repr, DecidableEq

/-- The stake-skip sub-result used when adding liquidity failed
(src/aerodromeUtils.ts:609-612, 620-623). -/
def stakeSkipResult : SubResult :=
  { success := false, message := some "Did not attempt staking because adding liquidity failed." }

/-- addLiquidityAndStake (src/aerodromeUtils.ts:594-716).  After a
successful add, the LP token is re-derived via getAerodromePair (which
catches internally and yields an address or null) and, when found,
stakeLPTokens is called with the MAX sentinel; the source marks
staked := true as soon as that call returns, regardless of the returned
success flag (src/aerodromeUtils.ts:683-689), while a thrown staking
error and every discovery failure yield staked := false. -/
def addLiquidityAndStake (env : ALSEnv) (poolName : String) : ALSResult :=
  match env.addLiquidityRes with
  | .error m =>
      { success := false
        message := some ("Failed to add liquidity: " ++ m)
        staked := false
        stakeResult := some stakeSkipResult }
  | .ok alr =>
    if alr.success = false then
      { success := false, message := alr.message, staked := false,
        stakeResult := some stakeSkipResult }
    else
      match splitDash poolName with
      | [sym0, sym1] =>
        match lookupAddress sym0, lookupAddress sym1 with
        | some t0, some t1 =>
          match env.pairFor t0 t1 (stableOf poolName) with
          | some lpTokenAddress =>
            if lpTokenAddress ≠ zeroAddress then
              match env.stakeRes with
              | .ok sr =>
                  { success := true, message := alr.message, staked := true,
                    stakeResult := some sr }
              | .error m =>
                  { success := true, message := alr.message, staked := false,
                    stakeResult := some { success := false, message := some ("Error staking LP tokens: " ++ m) } }
            else
              { success := true, message := alr.message, staked := false,
                stakeResult := some { success := false, message := some "No valid LP token address found for staking" } }
          | none =>
              { success := true, message := alr.message, staked := false,
                stakeResult := some { success := false, message := some "No valid LP token address found for staking" } }
        | _, _ =>
            { success := true, message := alr.message, staked := false,
              stakeResult := some { success := false, message := some ("Could not find addresses for tokens: " ++ sym0 ++ ", " ++ sym1) } }
      | _ =>
          { success := true, message := alr.message, staked := false,
            stakeResult := some { success := false, message := some ("Cannot parse token symbols from pool name: " ++ poolName) } }

/-! ## unstakeAndRemoveLiquidity (C8, src/aerodromeUtils.ts:731-882) -/

/-- An LP position as seen by the removal stage
(src/aerodrome.ts:493-501); unused fields omitted. -/
structure LPPos where
  lpToken : String
  poolName : String
  deriving Repr, DecidableEq

/-- Chain interactions performed after the staked-position lookup. -/
inductive PostLookupOp where
  | unstakeTx
  | lpPositionsQuery
  | removeTx
  deriving Repr, DecidableEq

/-- Environment of one unstakeAndRemoveLiquidity call:
getStakedPositions outcome (none when the utility returned null),
unstakeLPTokens outcome (error = thrown), getLPPositions outcome
(success flag and positions; it catches internally and never throws),
removeLiquidity outcome (error = thrown). -/
structure URLEnv where
  stakedPositions : Option (List StakedPos)
  unstakeRes : Except String SubResult
  lpPositionsOk : Bool
  lpPositions : List LPPos
  removeRes : Except String SubResult

/-- Combined result (src/aerodromeUtils.ts:24-44); sub-results are kept
as the flags' provenance and omitted here except through the flags. -/
structure URLResult where
  success : Bool
  message : Option String
  unstaked : Bool
  removed : Bool
  deriving Repr, DecidableEq

/-- Pool-name match used for both position lookups
(src/aerodromeUtils.ts:749-751, 810-812). -/
def poolNameMatches (poolName : String) (candidate : String) : Bool :=
  lowerString candidate = lowerString poolName

/-- Removal stage of unstakeAndRemoveLiquidity, entered only after a
successful unstake (src/aerodromeUtils.ts:795-870). -/
def removalStage (env : URLEnv) (poolName : String) (opsSoFar : List PostLookupOp) :
    URLResult × List PostLookupOp :=
  let ops := opsSoFar ++ [PostLookupOp.lpPositionsQuery]
  if env.lpPositionsOk = false then
    ({ success := true
       message := some "LP tokens unstaked but could not retrieve LP positions for removal"
       unstaked := true, removed := false }, ops)
  else
    match env.lpPositions.find? (fun p => poolNameMatches poolName p.poolName) with
    | none =>
        ({ success := true
           message := some "LP tokens unstaked but no LP position found for removal"
           unstaked := true, removed := false }, ops)
    | some _ =>
      match env.removeRes with
      | .error m =>
          ({ success := true
             message := some ("LP tokens unstaked but error removing liquidity: " ++ m)
             unstaked := true, removed := false }, ops ++ [PostLookupOp.removeTx])
      | .ok rr =>
        if rr.success = false then
          ({ success := true
             message := some "LP tokens unstaked but failed to remove liquidity"
             unstaked := true, removed := false }, ops ++ [PostLookupOp.removeTx])
        else
          ({ success := true
             message := some ("Successfully unstaked LP tokens and removed liquidity for " ++ poolName)
             unstaked := true, removed := true }, ops ++ [PostLookupOp.removeTx])

/-- unstakeAndRemoveLiquidity (src/aerodromeUtils.ts:731-882).  Returns
the combined result and the chain interactions performed after the
staked-position lookup. -/
def unstakeAndRemoveLiquidity (env : URLEnv) (poolName : String) :
    URLResult × List PostLookupOp :=
  match env.stakedPositions with
  | none =>
      ({ success := false, message := some "Could not retrieve staked positions",
         unstaked := false, removed := false }, [])
  | some positions =>
    match positions.find? (fun p => poolNameMatches poolName p.poolName) with
    | none =>
        ({ success := false
           message := some ("No staked position found for " ++ poolName)
           unstaked := false, removed := false }, [])
    | some _ =>
      match env.unstakeRes with
      | .error m =>
          ({ success := false, message := some ("Error unstaking LP tokens: " ++ m),
             unstaked := false, removed := false }, [PostLookupOp.unstakeTx])
      | .ok ur =>
        if ur.success = false then
          ({ success := false
             message := some "Failed to unstake LP tokens"
             unstaked := false, removed := false }, [PostLookupOp.unstakeTx])
        else
          removalStage env poolName [PostLookupOp.unstakeTx]

/-! ## Concrete fixtures used by witnesses and counterexamples -/

/-- The first catalog entry (src/aerodrome.ts:31-37). -/
def usdcWethPool : PoolCfg :=
  { name := "USDC-WETH", tokenA := ⟨"USDC", 6⟩, tokenB := ⟨"WETH", 18⟩, stable := false, slippage := 30 }

/-- A balance-read oracle where the WETH read fails and every other read
returns 12345. -/
def readFixture : String → Except String Nat :=
  fun s => if s = "WETH" then .error "rpc unreachable" else .ok 12345

/-- addLiquidity environment whose balance reads all return zero. -/
def addLiqEnvZero : AddLiqEnv :=
  { managerReady := true
    getTokenBalance := fun _ => .ok 0
    allowance := fun _ => 0
    approveOutcome := fun _ => .ok ()
    addLiquidityOutcome := .ok "0xhash1"
    eventLiquidity := none }

/-- Staked position earning 0.5 token (5 * 10^17 raw, 18 decimals). -/
def posHalf : StakedPos :=
  { lpToken := "0xlp1", gauge := "0xgauge1", poolName := "USDC-WETH", earned := 5 * 10 ^ 17 }

/-- Staked position earning exactly 1.0 token (10^18 raw). -/
def posOne : StakedPos :=
  { lpToken := "0xlp2", gauge := "0xgauge2", poolName := "USDC-AERO", earned := 10 ^ 18 }

/-- Staked position earning 1.5 tokens (15 * 10^17 raw). -/
def posOneHalf : StakedPos :=
  { lpToken := "0xlp3", gauge := "0xgauge3", poolName := "WETH-VIRTUAL", earned := 15 * 10 ^ 17 }

/-- The position set of the claim's threshold test. -/
def testPositions : List StakedPos := [posHalf, posOne, posOneHalf]

/-- Staked position earning 10^18 - 1 raw: one wei below a whole token,
whose formatted amount 0.999999999999999999 parses to exactly 1.0. -/
def posJustBelow : StakedPos :=
  { lpToken := "0xlp4", gauge := "0xgauge4", poolName := "WETH-VEIL", earned := 10 ^ 18 - 1 }

/-- An initialize environment where every external step succeeds. -/
def envOk : InitEnv :=
  { factoryCtorOk := true
    userAddress := .ok "0xUser1"
    getUserManager := .ok "0xManager1"
    managerAbiOk := true
    managerCtorOk := true
    ownerRes := .ok "0xuser1"
    aeroFactoryRes := .ok (some "0xAeroFactory1")
    setFactoryOk := true
    voterCtorOk := true }

/-- As envOk but getUserManager returns the zero address: the normal
no-manager-yet outcome. -/
def envNoManager : InitEnv :=
  { envOk with getUserManager := .ok zeroAddress }

/-- addLiquidityAndStake environment: the add succeeds, the LP token is
found, and stakeLPTokens returns a failure result (for example its
NoGaugeFound outcome, src/aerodrome.ts:1470-1471). -/
def alsEnvStakeFails : ALSEnv :=
  { addLiquidityRes := .ok { success := true, message := none }
    pairFor := fun _ _ _ => some "0xpair1"
    stakeRes := .ok { success := false, message := some "No gauge found for USDC-WETH" } }

/-- unstakeAndRemoveLiquidity environment holding one staked USDC-AERO
position, with a successful unstake and an LP-position list in which the
pool is absent, so the removal stage fails. -/
def urlEnvRemoveFails : URLEnv :=
  { stakedPositions := some [posOne]
    unstakeRes := .ok { success := true, message := none }
    lpPositionsOk := true
    lpPositions := []
    removeRes := .ok { success := true, message := none } }

/-! ## Helper lemmas -/

/-- The symbol field of a balance entry is the symbol it was built for,
in both the success and the zero-fill branch. -/
theorem balanceEntryFor_symbol (r : String → Except String Nat) (s : String) :
    (balanceEntryFor r s).symbol = s := by
  unfold balanceEntryFor
  cases r s <;> rfl

/-- Every balance entry carries a non-negative balance: the success
branch stores a uint256 and the zero-fill branch stores 0. -/
theorem balanceEntryFor_nonneg (r : String → Except String Nat) (s : String) :
    0 ≤ (balanceEntryFor r s).balance := by
  unfold balanceEntryFor
  cases r s with
  | ok b => exact Int.ofNat_nonneg b
  | error m => exact le_refl 0

/-- A failed read zero-fills the entry and records the error note. -/
theorem balanceEntryFor_error (r : String → Except String Nat) (s m : String)
    (h : r s = .error m) :
    (balanceEntryFor r s).balance = 0 ∧ (balanceEntryFor r s).errorNote = some m := by
  unfold balanceEntryFor
  rw [h]
  exact ⟨rfl, rfl⟩

/-- A successful initialize call always leaves the session marked
initialized: the only success returns are the already-initialized
short-circuit and the tail that sets the flag (src/aerodrome.ts:357). -/
theorem initializeStep_success_initialized (s : InitState) (e : InitEnv) :
    (initializeStep s e).1.success = true →
    ((initializeStep s e).2.1).initialized = true := by
  simp only [initializeStep, initializeTail]
  repeat' split
  all_goals intro h
  all_goals first
    | rfl
    | assumption
    | exact absurd h (by simp)

/-- C1: for every unsigned-integer balance B and slippage tolerance S in
basis points, the minimum-received amount computed by addLiquidity (both
the gateway form, whose catalog slippage is a percentage multiplied by
100, and the orchestrator form with its fixed 30 percent) equals
floor(B * (10000 - S) / 10000) in exact integer arithmetic; in
particular B = 1000000 with S = 3000 yields 700000 and B = 1 with
S = 9999 yields 0. -/
theorem addLiquidity_slippage_min_exact :
    (∀ B p : Nat, minAmountFromPercent B p = specSlippageMin B (p * 100)) ∧
    (∀ B : Nat, utilsMinAmount B = specSlippageMin B 3000) ∧
    specSlippageMin 1000000 3000 = 700000 ∧
    specSlippageMin 1 9999 = 0 := by
  refine ⟨fun B p => rfl, fun B => rfl, by decide, by decide⟩

/-- C9: formatting a raw integer balance with a given decimals count and
re-parsing the formatted decimal string reproduces the original value,
for decimals in {6, 18} and raw in {0, 1, 10^18, 2^200}. -/
theorem formatUnits_parseUnits_roundtrip :
    parseUnits (formatUnits 0 6) 6 = some 0 ∧
    parseUnits (formatUnits 1 6) 6 = some 1 ∧
    parseUnits (formatUnits (10 ^ 18) 6) 6 = some (10 ^ 18) ∧
    parseUnits (formatUnits (2 ^ 200) 6) 6 = some (2 ^ 200) ∧
    parseUnits (formatUnits 0 18) 18 = some 0 ∧
    parseUnits (formatUnits 1 18) 18 = some 1 ∧
    parseUnits (formatUnits (10 ^ 18) 18) 18 = some (10 ^ 18) ∧
    parseUnits (formatUnits (2 ^ 200) 18) 18 = some (2 ^ 200) := by
  decide

/-- C3 counterexample: toBigInt is not lossless on decimal-string
representations of integers up to 256 bits.  The decimal numeral of
2^53 + 1 = 9007199254740993 goes through parseFloat (binary64, ties to
even) and comes back as 9007199254740992; and a malformed 0x-string is
passed to BigInt outside the try block, so it throws instead of mapping
to zero. -/
theorem toBigInt_precision_counterexample :
    toBigInt (.decimalString 9007199254740993) = .ok 9007199254740992 ∧
    (9007199254740992 : Nat) ≠ 9007199254740993 ∧
    toBigInt .badHexString = .error () := by
  refine ⟨rfl, by decide, rfl⟩

/-- C3 amended: toBigInt is lossless on native bigints and well-formed
hex strings over the full 256-bit range, and on decimal strings only
below 2^53 (larger decimal numerals are rounded to the nearest binary64
before truncation); a non-hex unparseable string maps to zero, while a
malformed 0x-string throws. -/
theorem toBigInt_lossless_amended :
    ∀ n : Nat, n < 2 ^ 256 →
      toBigInt (.fromBigInt n) = .ok n ∧
      toBigInt (.hexString n) = .ok n ∧
      (n < 2 ^ 53 → toBigInt (.decimalString n) = .ok n) ∧
      toBigInt .unparsableString = .ok 0 := by
  intro n _
  refine ⟨rfl, rfl, fun h => ?_, rfl⟩
  have hr : roundFloat64 n = n := by
    unfold roundFloat64
    rw [if_pos h]
  show Except.ok (roundFloat64 n) = Except.ok n
  rw [hr]

/-- Witness for the amended C3 theorem at n = 3. -/
theorem toBigInt_lossless_amended_witness :
    toBigInt (.fromBigInt 3) = .ok 3 ∧
    toBigInt (.hexString 3) = .ok 3 ∧
    toBigInt (.decimalString 3) = .ok 3 :=
  ⟨(toBigInt_lossless_amended 3 (by norm_num)).1,
   (toBigInt_lossless_amended 3 (by norm_num)).2.1,
   (toBigInt_lossless_amended 3 (by norm_num)).2.2.1 (by norm_num)⟩

/-- C4: for every symbol in the fixed allow-list, getManagerBalances
returns exactly one entry for that symbol, its raw balance is
non-negative, and a failed balance read zero-fills the entry with an
error note instead of omitting it. -/
theorem getManagerBalances_one_entry_per_symbol :
    ∀ (readBalance : String → Except String Nat) (sym : String),
      sym ∈ tokenSymbols →
      ((getManagerBalances readBalance).filter (fun e => e.symbol = sym)).length = 1 ∧
      (∀ e ∈ getManagerBalances readBalance, e.symbol = sym →
        0 ≤ e.balance ∧
        ∀ m, readBalance sym = .error m → e.balance = 0 ∧ e.errorNote = some m) := by
  intro readBalance sym hmem
  constructor
  · fin_cases hmem <;>
      simp [getManagerBalances, tokenSymbols, List.filter, balanceEntryFor_symbol]
  · intro e he hsym
    obtain ⟨s, hs, rfl⟩ := List.mem_map.1 he
    rw [balanceEntryFor_symbol] at hsym
    subst hsym
    exact ⟨balanceEntryFor_nonneg readBalance s,
      fun m hm => balanceEntryFor_error readBalance s m hm⟩

/-- Witness for C4 at the fixture oracle whose WETH read fails. -/
theorem getManagerBalances_one_entry_per_symbol_witness :
    ((getManagerBalances readFixture).filter (fun e => e.symbol = "WETH")).length = 1 ∧
    0 ≤ (balanceEntryFor readFixture "WETH").balance ∧
    (balanceEntryFor readFixture "WETH").balance = 0 ∧
    (balanceEntryFor readFixture "WETH").errorNote = some "rpc unreachable" := by
  have h := getManagerBalances_one_entry_per_symbol readFixture "WETH" (by decide)
  have hmem : balanceEntryFor readFixture "WETH" ∈ getManagerBalances readFixture := by
    decide
  have h2 := h.2 (balanceEntryFor readFixture "WETH") hmem (by rfl)
  exact ⟨h.1, h2.1, (h2.2 "rpc unreachable" (by rfl)).1, (h2.2 "rpc unreachable" (by rfl)).2⟩

/-- C5: addLiquidity submits no state-mutating transaction (neither an
approval nor the liquidity-add call) when either leg's manager balance
is zero: the zero-balance precondition returns the insufficient-balance
failure with an empty transaction trace. -/
theorem addLiquidity_no_tx_on_zero_balance :
    ∀ (env : AddLiqEnv) (poolName : String) (pool : PoolCfg) (balA balB : Nat),
      env.managerReady = true →
      POOLS.find? (fun p => p.name = poolName) = some pool →
      env.getTokenBalance ((lookupAddress pool.tokenA.symbol).getD zeroAddress) = .ok balA →
      env.getTokenBalance ((lookupAddress pool.tokenB.symbol).getD zeroAddress) = .ok balB →
      balA = 0 ∨ balB = 0 →
      (managerAddLiquidity env poolName).2 = [] ∧
      (managerAddLiquidity env poolName).1.success = false ∧
      (managerAddLiquidity env poolName).1.message =
        some ("Insufficient balance in manager. Please deposit " ++ pool.tokenA.symbol
              ++ " and " ++ pool.tokenB.symbol ++ " first.") := by
  intro env poolName pool balA balB hready hfind hA hB hzero
  simp only [managerAddLiquidity, hready, hfind, hA, hB]
  rw [if_pos hzero]
  exact ⟨rfl, rfl, rfl⟩

/-- Witness for C5: the all-zero-balance environment on the USDC-WETH
pool issues no transaction. -/
theorem addLiquidity_no_tx_on_zero_balance_witness :
    (managerAddLiquidity addLiqEnvZero "USDC-WETH").2 = [] ∧
    (managerAddLiquidity addLiqEnvZero "USDC-WETH").1.success = false ∧
    (managerAddLiquidity addLiqEnvZero "USDC-WETH").1.message =
      some "Insufficient balance in manager. Please deposit USDC and WETH first." :=
  addLiquidity_no_tx_on_zero_balance addLiqEnvZero "USDC-WETH" usdcWethPool 0 0
    rfl (by decide) rfl rfl (Or.inl rfl)

/-- C6 counterexample: the claim as stated is false on the code.  The
position earning 10^18 - 1 raw has formatted earned amount
0.999999999999999999, strictly less than 1.0, yet claimAllRewards
attempts its claim: parseFloat rounds that numeral to exactly 1.0
(it lies within 2^-54 of 1.0, and the halfway tie also breaks to the
even mantissa of 1.0), so the filter at src/aerodrome.ts:1658-1659
admits it. -/
theorem claimAllRewards_formatted_below_one_attempted :
    posJustBelow.earned < 10 ^ 18 ∧
    parseFloatDecimal (formatUnits posJustBelow.earned 18) =
      { mantissa := 2 ^ 53, exponent := -1 } ∧
    claimThreshold posJustBelow.earned = true ∧
    (managerClaimAllRewards (some [posJustBelow]) (fun _ => true)).2 = [posJustBelow] := by
  exact ⟨by decide, by decide, by decide, by decide⟩

/-- C6 amended: claimAllRewards applies the 1.0 threshold to the
float64-parsed formatted earned amount: it attempts a claim exactly for
the staked positions whose parsed amount reaches 1.0 — raw earned at
least 10^18 - 55, which includes amounts up to 55 wei below one whole
token, since parseFloat rounds those to exactly 1.0 — and excludes the
rest, independently of the per-gauge claim outcomes (so one failing
claim blocks no other attempt), with overall success exactly when at
least one attempted claim succeeded; on positions earning
{0.5, 1.0, 1.5} tokens exactly the latter two are attempted, and the
true boundary sits between 10^18 - 56 and 10^18 - 55. -/
theorem claimAllRewards_threshold_policy :
    ∀ (ps : List StakedPos) (claimOutcome : StakedPos → Bool),
      (managerClaimAllRewards (some ps) claimOutcome).2 =
        ps.filter (fun p => claimThreshold p.earned) ∧
      (∀ p ∈ ps, claimThreshold p.earned = false →
        p ∉ (managerClaimAllRewards (some ps) claimOutcome).2) ∧
      (∀ p ∈ ps, claimThreshold p.earned = true →
        p ∈ (managerClaimAllRewards (some ps) claimOutcome).2) ∧
      ((managerClaimAllRewards (some ps) claimOutcome).1.success = true ↔
        ∃ p ∈ ps, claimThreshold p.earned = true ∧ claimOutcome p = true) ∧
      (managerClaimAllRewards (some testPositions) (fun _ => true)).2 = [posOne, posOneHalf] ∧
      claimThreshold (10 ^ 18 - 55) = true ∧
      claimThreshold (10 ^ 18 - 56) = false := by
  intro ps f
  have hatt : (managerClaimAllRewards (some ps) f).2 =
      ps.filter (fun p => claimThreshold p.earned) := by
    simp only [managerClaimAllRewards]
    by_cases h1 : ps = []
    · subst h1
      simp
    · rw [if_neg h1]
      by_cases h2 : ps.filter (fun p => claimThreshold p.earned) = []
      · rw [if_pos h2, h2]
      · rw [if_neg h2]
        split <;> rfl
  refine ⟨hatt, ?_, ?_, ?_, by decide, by decide, by decide⟩
  · intro p hp hthr
    rw [hatt]
    simp [List.mem_filter, hthr]
  · intro p hp hthr
    rw [hatt]
    simp [List.mem_filter, hp, hthr]
  · by_cases h1 : ps = []
    · subst h1
      simp [managerClaimAllRewards]
    · by_cases h2 : ps.filter (fun p => claimThreshold p.earned) = []
      · have h2' := List.filter_eq_nil_iff.1 h2
        simp only [managerClaimAllRewards]
        rw [if_neg h1, if_pos h2]
        constructor
        · intro hfalse
          exact absurd hfalse (by simp)
        · rintro ⟨p, hp, hthr, _⟩
          exact absurd hthr (by simpa using h2' p hp)
      · by_cases h3 : (ps.filter (fun p => claimThreshold p.earned)).filter f = []
        · have h3' := List.filter_eq_nil_iff.1 h3
          simp only [managerClaimAllRewards]
          rw [if_neg h1, if_neg h2, if_pos h3]
          constructor
          · intro hfalse
            exact absurd hfalse (by simp)
          · rintro ⟨p, hp, hthr, hf⟩
            have hpmem : p ∈ ps.filter (fun q => claimThreshold q.earned) :=
              List.mem_filter.2 ⟨hp, hthr⟩
            exact absurd hf (by simpa using h3' p hpmem)
        · simp only [managerClaimAllRewards]
          rw [if_neg h1, if_neg h2, if_neg h3]
          constructor
          · intro _
            obtain ⟨p, hpmem⟩ := List.exists_mem_of_ne_nil _ h3
            have hpf := List.mem_filter.1 hpmem
            have hpt := List.mem_filter.1 hpf.1
            exact ⟨p, hpt.1, hpt.2, hpf.2⟩
          · intro _
            rfl

/-- Witness for C6 at the {0.5, 1.0, 1.5} test positions with an
all-success claim oracle. -/
theorem claimAllRewards_threshold_policy_witness :
    (managerClaimAllRewards (some testPositions) (fun _ => true)).2 =
      testPositions.filter (fun p => claimThreshold p.earned) ∧
    posOne ∈ (managerClaimAllRewards (some testPositions) (fun _ => true)).2 ∧
    posHalf ∉ (managerClaimAllRewards (some testPositions) (fun _ => true)).2 ∧
    (managerClaimAllRewards (some testPositions) (fun _ => true)).2 = [posOne, posOneHalf] := by
  have h := claimAllRewards_threshold_policy testPositions (fun _ => true)
  exact ⟨h.1,
    h.2.2.1 posOne (by decide) (by decide),
    h.2.1 posHalf (by decide) (by decide),
    h.2.2.2.2.1⟩

/-- C7: on a session whose earlier initialize() succeeded, every
subsequent initialize() call short-circuits: it returns success with the
already-initialized message, makes no chain call, and leaves the session
state unchanged. -/
theorem initializeStep_idempotent :
    ∀ (s : InitState) (e : InitEnv),
      (initializeStep s e).1.success = true →
      ∀ e' : InitEnv,
        initializeStep (initializeStep s e).2.1 e' =
          ({ success := true, managerAddress := none, message := some "Already initialized" },
           (initializeStep s e).2.1, []) := by
  intro s e h e'
  have hinit := initializeStep_success_initialized s e h
  set s2 := (initializeStep s e).2.1 with hs2
  simp only [initializeStep, hinit, if_true]

/-- Witness for C7: a fully successful first call on a fresh session,
then a second call with the same environment. -/
theorem initializeStep_idempotent_witness :
    initializeStep (initializeStep freshState envOk).2.1 envOk =
      ({ success := true, managerAddress := none, message := some "Already initialized" },
       (initializeStep freshState envOk).2.1, []) :=
  initializeStep_idempotent freshState envOk (by decide) envOk

/-- C10 failing input: on a fresh session, initialize() hitting the
normal no-manager outcome (getUserManager returns the zero address)
returns the structured failure but leaves the initializing guard set, so
the next initialize() call is rejected as already in progress even
though no initialization is executing. -/
theorem initializeStep_lock_leak :
    (initializeStep freshState envNoManager).1 =
      { success := false, managerAddress := none,
        message := some "No manager found for your address. Create one first." } ∧
    ((initializeStep freshState envNoManager).2.1).initializing = true ∧
    (initializeStep (initializeStep freshState envNoManager).2.1 envOk).1 =
      { success := false, managerAddress := none,
        message := some "Initialization already in progress" } := by
  exact ⟨by decide, by decide, by decide⟩

/-- C2 failing input: addLiquidity succeeds, the LP token address is
found, and stakeLPTokens returns a failure result; the combined result
keeps overall success true and preserves the nested failure, but marks
staked true (src/aerodromeUtils.ts:683-689) where the claim requires
staked false. -/
theorem addLiquidityAndStake_staked_flag_bug :
    (addLiquidityAndStake alsEnvStakeFails "USDC-WETH").success = true ∧
    (addLiquidityAndStake alsEnvStakeFails "USDC-WETH").stakeResult =
      some { success := false, message := some "No gauge found for USDC-WETH" } ∧
    (addLiquidityAndStake alsEnvStakeFails "USDC-WETH").staked = true := by
  exact ⟨by decide, by decide, by decide⟩

/-- C8: in unstakeAndRemoveLiquidity, (a) when no staked position
matches the pool name case-insensitively, the result is all-false with
no chain interaction beyond the position lookup; (b) when the unstake
stage succeeds and any part of the removal stage fails (LP enumeration
fails, the LP position is absent, or removeLiquidity throws or returns
failure), the result is success true, unstaked true, removed false. -/
theorem unstakeAndRemoveLiquidity_stage_flags :
    (∀ (env : URLEnv) (poolName : String) (ps : List StakedPos),
      env.stakedPositions = some ps →
      ps.find? (fun p => poolNameMatches poolName p.poolName) = none →
      unstakeAndRemoveLiquidity env poolName =
        ({ success := false,
           message := some ("No staked position found for " ++ poolName),
           unstaked := false, removed := false }, [])) ∧
    (∀ (env : URLEnv) (poolName : String) (ps : List StakedPos) (sp : StakedPos) (ur : SubResult),
      env.stakedPositions = some ps →
      ps.find? (fun p => poolNameMatches poolName p.poolName) = some sp →
      env.unstakeRes = .ok ur →
      ur.success = true →
      (env.lpPositionsOk = false ∨
       env.lpPositions.find? (fun p => poolNameMatches poolName p.poolName) = none ∨
       (∃ m, env.removeRes = .error m) ∨
       (∃ rr, env.removeRes = .ok rr ∧ rr.success = false)) →
      (unstakeAndRemoveLiquidity env poolName).1.success = true ∧
      (unstakeAndRemoveLiquidity env poolName).1.unstaked = true ∧
      (unstakeAndRemoveLiquidity env poolName).1.removed = false) := by
  constructor
  · intro env poolName ps h1 h2
    simp [unstakeAndRemoveLiquidity, h1, h2]
  · intro env poolName ps sp ur h1 h2 h3 h4 hfail
    simp only [unstakeAndRemoveLiquidity, h1, h2, h3, h4]
    rcases hfail with hok | hfind | ⟨m, hrem⟩ | ⟨rr, hrem, hrr⟩
    · simp [removalStage, hok]
    · by_cases hok : env.lpPositionsOk = false
      · simp [removalStage, hok]
      · simp [removalStage, hok, hfind]
    · by_cases hok : env.lpPositionsOk = false
      · simp [removalStage, hok]
      · by_cases hfind : env.lpPositions.find? (fun p => poolNameMatches poolName p.poolName) = none
        · simp [removalStage, hok, hfind]
        · obtain ⟨lp, hlp⟩ := Option.ne_none_iff_exists'.1 hfind
          simp [removalStage, hok, hlp, hrem]
    · by_cases hok : env.lpPositionsOk = false
      · simp [removalStage, hok]
      · by_cases hfind : env.lpPositions.find? (fun p => poolNameMatches poolName p.poolName) = none
        · simp [removalStage, hok, hfind]
        · obtain ⟨lp, hlp⟩ := Option.ne_none_iff_exists'.1 hfind
          simp [removalStage, hok, hlp, hrem, hrr]

/-- Witness for C8: the fixture environment, queried first for a pool
with no staked position and then (case-insensitively) for the staked
USDC-AERO pool whose LP position is absent at removal time. -/
theorem unstakeAndRemoveLiquidity_stage_flags_witness :
    unstakeAndRemoveLiquidity urlEnvRemoveFails "FOO-BAR" =
      ({ success := false, message := some "No staked position found for FOO-BAR",
         unstaked := false, removed := false }, []) ∧
    ((unstakeAndRemoveLiquidity urlEnvRemoveFails "usdc-aero").1.success = true ∧
     (unstakeAndRemoveLiquidity urlEnvRemoveFails "usdc-aero").1.unstaked = true ∧
     (unstakeAndRemoveLiquidity urlEnvRemoveFails "usdc-aero").1.removed = false) :=
  ⟨unstakeAndRemoveLiquidity_stage_flags.1 urlEnvRemoveFails "FOO-BAR" [posOne] rfl (by decide),
   unstakeAndRemoveLiquidity_stage_flags.2 urlEnvRemoveFails "usdc-aero" [posOne] posOne
     { success := true, message := none } rfl (by decide) rfl rfl
     (Or.inr (Or.inl (by decide)))⟩
